/-
Verification of the unified AI service layer of zen-ai-mcp-task-master.

The definitions below are shallow embeddings of the JavaScript sources:
  * `scripts/modules/ai-services-unified.js` (retry executor, unified
    service runner, telemetry recorder, public facades),
  * `src/ai-providers/openai.js` (the OpenAI provider adapter), and
  * the schema-sanitization routine `cleanJsonSchema` from
    `scripts/modules/task-manager/parse-prd.js`.

External collaborators that live outside the embedded modules
(config-manager getters, `resolveEnvVariable`, the network) are modelled
as explicit parameters, so each theorem quantifies over their behaviour.
-/
import Mathlib

namespace TaskMaster

/-! ## JSON values and the schema sanitizer (`cleanJsonSchema`) -/

/-- A JSON value, as manipulated by `cleanJsonSchema` in `parse-prd.js`.
Objects are ordered key/value lists (JS object insertion order). -/
inductive Json where
  | null : Json
  | bool (b : Bool) : Json
  | num (n : Int) : Json
  | str (s : String) : Json
  | arr (items : List Json) : Json
  | obj (fields : List (String × Json)) : Json

/-- The keys removed by `cleanJsonSchema`: the `$schema` dialect marker and
the exclusive-bound keywords. -/
def bannedKey (k : String) : Bool :=
  k == "$schema" || k == "exclusiveMinimum" || k == "exclusiveMaximum"

mutual
/-- Shallow embedding of `cleanJsonSchema` (parse-prd.js): primitives are
returned as-is, arrays are mapped element-wise, and objects drop the
banned keys while recursively cleaning the remaining values. -/
def cleanJsonSchema : Json → Json
  | .null => .null
  | .bool b => .bool b
  | .num n => .num n
  | .str s => .str s
  | .arr items => .arr (cleanJsonList items)
  | .obj fields => .obj (cleanJsonFields fields)

/-- Element-wise cleaning of a JSON array (the `Array.isArray` branch). -/
def cleanJsonList : List Json → List Json
  | [] => []
  | j :: rest => cleanJsonSchema j :: cleanJsonList rest

/-- The `for (const key in schema)` loop: skip banned keys, recursively
clean the values kept. -/
def cleanJsonFields : List (String × Json) → List (String × Json)
  | [] => []
  | (k, v) :: rest =>
    if bannedKey k then cleanJsonFields rest
    else (k, cleanJsonSchema v) :: cleanJsonFields rest
end

mutual
/-- Checks that no object anywhere in the JSON tree carries a banned key. -/
def noBannedJson : Json → Bool
  | .arr items => noBannedList items
  | .obj fields => noBannedFields fields
  | .null => true
  | .bool _ => true
  | .num _ => true
  | .str _ => true

/-- Applies `noBannedJson` to every element of an array. -/
def noBannedList : List Json → Bool
  | [] => true
  | j :: rest => noBannedJson j && noBannedList rest

/-- Applies `noBannedJson` to every field of an object, and checks that no
field key of this object is banned. -/
def noBannedFields : List (String × Json) → Bool
  | [] => true
  | (k, v) :: rest => !bannedKey k && noBannedJson v && noBannedFields rest
end

example :
    cleanJsonSchema (.obj [("$schema", .str "http"), ("type", .str "object"),
      ("properties", .obj [("exclusiveMinimum", .num 0), ("x", .num 1)])]) =
    .obj [("type", .str "object"), ("properties", .obj [("x", .num 1)])] := by
  rfl

mutual
theorem noBanned_cleanJsonSchema : ∀ j : Json, noBannedJson (cleanJsonSchema j) = true
  | .arr items => by simp [cleanJsonSchema, noBannedJson, noBanned_cleanJsonList items]
  | .obj fields => by simp [cleanJsonSchema, noBannedJson, noBanned_cleanJsonFields fields]
  | .null => by rfl
  | .bool _ => rfl
  | .num _ => by rfl
  | .str _ => rfl

theorem noBanned_cleanJsonList : ∀ l : List Json, noBannedList (cleanJsonList l) = true
  | [] => rfl
  | j :: rest => by
      simp [cleanJsonList, noBannedList, noBanned_cleanJsonSchema j, noBanned_cleanJsonList rest]

theorem noBanned_cleanJsonFields : ∀ fs : List (String × Json), noBannedFields (cleanJsonFields fs) = true
  | [] => rfl
  | (k, v) :: rest => by
      by_cases h : bannedKey k = true <;>
        simp [cleanJsonFields, h, noBannedFields, noBanned_cleanJsonSchema v,
          noBanned_cleanJsonFields rest]
end

theorem cleanJsonFields_eq_filter_map (fs : List (String × Json)) :
    cleanJsonFields fs =
      (fs.filter (fun kv => !bannedKey kv.1)).map (fun kv => (kv.1, cleanJsonSchema kv.2)) := by
  induction fs with
  | nil => rfl
  | cons kv rest ih =>
      obtain ⟨k, v⟩ := kv
      by_cases h : bannedKey k = true <;> simp [cleanJsonFields, h, List.filter, ih]

/-- C9: `cleanJsonSchema` strips the unsupported meta-keywords (`$schema`,
`exclusiveMinimum`, `exclusiveMaximum`) recursively at every depth of the
schema tree — no banned key survives anywhere in the output — and an
object's remaining fields are exactly the non-banned ones, in order, with
their values recursively cleaned and everything else unchanged. -/
theorem cleanJsonSchema_strips_unsupported_keywords :
    (∀ j : Json, noBannedJson (cleanJsonSchema j) = true) ∧
    (∀ fs : List (String × Json),
      cleanJsonFields fs =
        (fs.filter (fun kv => !bannedKey kv.1)).map
          (fun kv => (kv.1, cleanJsonSchema kv.2))) :=
  ⟨noBanned_cleanJsonSchema, cleanJsonFields_eq_filter_map⟩

/-! ## Errors and retry classification (`ai-services-unified.js`) -/

/-- A JavaScript error object as inspected by `isRetryableError` and
`_extractErrorMessage`: the `message` string, an optional HTTP-like
`status`, and the optional nested message shapes probed by
`_extractErrorMessage` (`error.data.error.message`, `error.error.message`,
and the `error.message` found inside a JSON `responseBody`, when any). -/
structure JsError where
  message : String
  status : Option Int
  dataErrorMessage : Option String
  errorErrorMessage : Option String
  responseBodyErrorMessage : Option String
deriving Repr, DecidableEq

/-- A plain `new Error(m)`: only the message is set. -/
def mkErr (m : String) : JsError :=
  { message := m, status := none, dataErrorMessage := none,
    errorErrorMessage := none, responseBodyErrorMessage := none }

/-- Holds when `p` is a prefix of `s` (character lists). -/
def startsWithChars : List Char → List Char → Bool
  | _, [] => true
  | [], _ :: _ => false
  | a :: s, b :: p => a == b && startsWithChars s p

/-- Holds when `p` occurs contiguously inside `s`. -/
def hasInfixChars : List Char → List Char → Bool
  | [], p => startsWithChars [] p
  | a :: rest, p => startsWithChars (a :: rest) p || hasInfixChars rest p

/-- JavaScript `s.includes(pat)`: `pat` occurs as a contiguous substring. -/
def containsSub (s pat : String) : Bool := hasInfixChars s.toList pat.toList

/-- JavaScript `s.toLowerCase()`: lowercase every character. -/
def lowerStr (s : String) : String := String.mk (s.toList.map Char.toLower)

theorem startsWithChars_iff (s p : List Char) :
    startsWithChars s p = true ↔ p <+: s := by
  induction p generalizing s with
  | nil => simp [startsWithChars]
  | cons b ps ih =>
      cases s with
      | nil => simp [startsWithChars]
      | cons a as =>
          simp only [startsWithChars, Bool.and_eq_true, beq_iff_eq, ih,
            List.cons_prefix_cons]
          exact ⟨fun h => ⟨h.1.symm, h.2⟩, fun h => ⟨h.1.symm, h.2⟩⟩

theorem hasInfixChars_iff (s p : List Char) :
    hasInfixChars s p = true ↔ p <:+: s := by
  induction s with
  | nil => simp [hasInfixChars, startsWithChars_iff]
  | cons a rest ih =>
      rw [ List.infix_cons_iff]
      simp [hasInfixChars, startsWithChars_iff, ih]

theorem containsSub_of_append (a b c : String) :
    containsSub (a ++ b ++ c) b = true := by
  rw [containsSub, hasInfixChars_iff]
  refine ⟨a.toList, c.toList, ?_⟩
  simp [String.toList]

/-- Shallow embedding of `isRetryableError`: the lowercased message
contains one of five transient-failure phrases, or the status is 429 or
at least 500 (an absent status compares false, as in JS). -/
def isRetryableError (e : JsError) : Bool :=
  let msg := lowerStr e.message
  containsSub msg "rate limit" ||
    containsSub msg "overloaded" ||
    containsSub msg "service temporarily unavailable" ||
    containsSub msg "timeout" ||
    containsSub msg "network error" ||
    e.status == some 429 ||
    (match e.status with
     | some s => decide (500 ≤ s)
     | none => false)

/-- Retry budget constant `MAX_RETRIES` from `ai-services-unified.js`. -/
def MAX_RETRIES : Nat := 2

/-- One turn of the `while (retries <= MAX_RETRIES)` loop of
`_attemptProviderCallWithRetries`. `fn i` is the outcome of the provider
function on its `i`-th invocation; `budget` is `MAX_RETRIES - retries`.
Returns the propagated outcome and the number of invocations made. -/
def attemptAux {α : Type} (fn : Nat → Except JsError α) (idx : Nat) :
    Nat → Except JsError α × Nat
  | 0 => (fn idx, 1)
  | budget + 1 =>
    match fn idx with
    | .ok r => (.ok r, 1)
    | .error e =>
      if isRetryableError e then
        let r := attemptAux fn (idx + 1) budget
        (r.1, r.2 + 1)
      else (.error e, 1)

/-- Shallow embedding of `_attemptProviderCallWithRetries`: start with
`retries = 0` and a budget of `MAX_RETRIES` further attempts. -/
def attemptProviderCallWithRetries {α : Type} (fn : Nat → Except JsError α) :
    Except JsError α × Nat :=
  attemptAux fn 0 MAX_RETRIES

theorem attemptAux_count_le {α : Type} (fn : Nat → Except JsError α) :
    ∀ budget idx, (attemptAux fn idx budget).2 ≤ budget + 1 := by
  intro budget
  induction budget with
  | zero => intro idx; simp [attemptAux]
  | succ b ih =>
      intro idx
      simp only [attemptAux]
      cases fn idx with
      | ok r => simp
      | error e =>
          by_cases h : isRetryableError e = true <;> simp [h]
          exact ih (idx + 1)

theorem attemptAux_all_retryable {α : Type} (fn : Nat → Except JsError α)
    (h : ∀ i, ∃ e, fn i = .error e ∧ isRetryableError e = true) :
    ∀ budget idx, attemptAux fn idx budget = (fn (idx + budget), budget + 1) := by
  intro budget
  induction budget with
  | zero => intro idx; simp [attemptAux]
  | succ b ih =>
      intro idx
      obtain ⟨e, he, hr⟩ := h idx
      simp only [attemptAux, he, hr, if_true, ih (idx + 1)]
      have harith : idx + 1 + b = idx + (b + 1) := by omega
      rw [harith]

theorem attemptAux_const_error {α : Type} (fn : Nat → Except JsError α) (e : JsError)
    (h : ∀ i, fn i = .error e) :
    ∀ budget idx, (attemptAux fn idx budget).1 = .error e := by
  intro budget
  induction budget with
  | zero => intro idx; simp [attemptAux, h]
  | succ b ih =>
      intro idx
      simp only [attemptAux, h idx]
      by_cases hr : isRetryableError e = true <;> simp [hr, ih (idx + 1)]

/-- C2: the retry executor invokes an always-retryably-failing provider
function exactly `MAX_RETRIES + 1` times and then propagates the last
original error unwrapped; a non-retryable error propagates after exactly
one invocation; invocations never exceed `MAX_RETRIES + 1`; and an error
is retryable exactly when its lowercased message contains one of the five
transient phrases or its status is 429 or at least 500. -/
theorem retry_executor_attempt_counts {α : Type} (fn : Nat → Except JsError α) :
    ((∀ i, ∃ e, fn i = .error e ∧ isRetryableError e = true) →
      attemptProviderCallWithRetries fn = (fn MAX_RETRIES, MAX_RETRIES + 1)) ∧
    (∀ e, fn 0 = .error e → isRetryableError e = false →
      attemptProviderCallWithRetries fn = (.error e, 1)) ∧
    (attemptProviderCallWithRetries fn).2 ≤ MAX_RETRIES + 1 ∧
    (∀ e : JsError, isRetryableError e = true ↔
      (containsSub (lowerStr e.message) "rate limit" = true ∨
        containsSub (lowerStr e.message) "overloaded" = true ∨
        containsSub (lowerStr e.message) "service temporarily unavailable" = true ∨
        containsSub (lowerStr e.message) "timeout" = true ∨
        containsSub (lowerStr e.message) "network error" = true ∨
        e.status = some 429 ∨ (∃ s, e.status = some s ∧ 500 ≤ s))) := by
  refine ⟨?_, ?_, ?_, ?_⟩
  · intro h
    rw [attemptProviderCallWithRetries, attemptAux_all_retryable fn h MAX_RETRIES 0]
    simp
  · intro e h0 hnr
    rw [attemptProviderCallWithRetries]
    show attemptAux fn 0 2 = (.error e, 1)
    simp [attemptAux, h0, hnr]
  · exact attemptAux_count_le fn MAX_RETRIES 0
  · intro e
    cases hs : e.status with
    | none =>
        simp [isRetryableError, hs]
        tauto
    | some s =>
        simp [isRetryableError, hs, exists_eq_left']
        tauto

/-- Witness for C2 at concrete provider functions: a function always
throwing a rate-limit error is invoked 3 times and its error propagates;
a function throwing a non-retryable error is invoked once. -/
theorem retry_executor_attempt_counts_witness :
    attemptProviderCallWithRetries (fun _ => (.error (mkErr "rate limit") : Except JsError Nat)) =
      (.error (mkErr "rate limit"), 3) ∧
    attemptProviderCallWithRetries (fun _ => (.error (mkErr "boom") : Except JsError Nat)) =
      (.error (mkErr "boom"), 1) := by
  constructor
  · exact (retry_executor_attempt_counts _).1 (fun _ => ⟨_, rfl, by decide⟩)
  · exact (retry_executor_attempt_counts _).2.1 _ rfl (by decide)

/-! ## Data model of the unified service runner -/

/-- The three service types dispatched by `_unifiedServiceRunner`. -/
inductive ServiceType where
  | generateText : ServiceType
  | streamText : ServiceType
  | generateObject : ServiceType
deriving Repr, DecidableEq

/-- A chat message `{role, content}`. -/
structure Message where
  role : String
  content : String
deriving Repr, DecidableEq

/-- JS truthiness of a possibly-absent string: absent and empty are falsy. -/
def strTruthy : Option String → Bool
  | none => false
  | some s => !(s == "")

/-- Wrap a string in single quotes, as the runner's template literals do. -/
def sq (s : String) : String := "\x27" ++ s ++ "\x27"

/-- Render a possibly-absent string as JS template interpolation does. -/
def jsShow : Option String → String
  | none => "undefined"
  | some s => s

/-- The provider/model pair a role resolves to via config-manager getters
(`getMainProvider`/`getMainModelId` and friends). Either may be absent. -/
structure RoleConfig where
  provider : Option String
  modelId : Option String
deriving Repr, DecidableEq

/-- The per-role model table from `.taskmasterconfig`. -/
structure Config where
  main : RoleConfig
  research : RoleConfig
  fallback : RoleConfig
deriving Repr, DecidableEq

/-- Role-specific `maxTokens`/`temperature` from `getParametersForRole`. -/
structure RoleParams where
  maxTokens : Int
  temperature : Rat
deriving Repr, DecidableEq

/-- The external collaborators of the runner, abstracted: the role/model
config, `getUserId`, `getParametersForRole`, `getBaseUrlForRole`, and
`resolveEnvVariable` (session -> environment -> project `.env` lookup). -/
structure ConfigEnv where
  config : Config
  userId : Option String
  roleParams : String → RoleParams
  baseUrlForRole : String → Option String
  envLookup : String → Option String

/-- The `switch (initialRole)` of `_unifiedServiceRunner`: `main`,
`research` and `fallback` resolve their own config; any other role logs
an error and defaults to the main role's provider and model. -/
def resolveRoleModel (cfg : Config) (role : String) : Option String × Option String :=
  if role == "main" then (cfg.main.provider, cfg.main.modelId)
  else if role == "research" then (cfg.research.provider, cfg.research.modelId)
  else if role == "fallback" then (cfg.fallback.provider, cfg.fallback.modelId)
  else (cfg.main.provider, cfg.main.modelId)

/-- The `keyMap` of `_resolveApiKey`: only `openai` has a key name. -/
def keyMap (providerName : String) : Option String :=
  if providerName == "openai" then some "OPENAI_API_KEY" else none

/-- Shallow embedding of `_resolveApiKey`: unknown providers (except
`ollama`) throw; a known provider whose environment variable is unset or
empty logs a warning and returns `null` instead of throwing. -/
def resolveApiKey (lookup : String → Option String) (providerName : String) :
    Except JsError (Option String) :=
  match keyMap providerName with
  | none =>
    if providerName == "ollama" then .ok (some "ollama-no-key-required")
    else .error (mkErr ("Unknown provider " ++ sq providerName ++ " for API key resolution."))
  | some envVarName =>
    match lookup envVarName with
    | none => .ok none
    | some k => if k == "" then .ok none else .ok (some k)

/-- Shallow embedding of `_extractErrorMessage`: probe the nested shapes
in order, fall back to the top-level message, then to a fixed string. -/
def extractErrorMessage (e : JsError) : String :=
  if strTruthy e.dataErrorMessage then e.dataErrorMessage.getD ""
  else if strTruthy e.errorErrorMessage then e.errorErrorMessage.getD ""
  else if strTruthy e.responseBodyErrorMessage then e.responseBodyErrorMessage.getD ""
  else if e.message == "" then "An unknown AI service error occurred."
  else e.message

/-- The five phrasings of a tool-use capability failure recognized by the
`generateObject` branch of the runner's catch block. -/
def toolUseUnsupportedMsg (lowerMsg : String) : Bool :=
  containsSub lowerMsg "no endpoints found that support tool use" ||
    containsSub lowerMsg "does not support tool_use" ||
    containsSub lowerMsg "tool use is not supported" ||
    containsSub lowerMsg "tools are not supported" ||
    containsSub lowerMsg "function calling is not supported"

/-- JS `x || 'unknown'` on a possibly-absent string. -/
def orUnknown (o : Option String) : String :=
  if strTruthy o then o.getD "" else "unknown"

/-- The targeted configuration-guidance message built by the runner when a
`generateObject` call fails with a tool-use capability error. -/
def toolSupportErrorMsg (modelIdO providerNameO : Option String) (initialRole : String) :
    String :=
  "Model " ++ sq (orUnknown modelIdO) ++ " via provider " ++ sq (orUnknown providerNameO) ++
    " does not support the " ++ sq "tool use" ++
    " required by generateObjectService. Please configure a model that supports tool/function calling for the " ++
    sq initialRole ++
    " role, or use generateTextService if structured output is not strictly required."

/-- The catch block of `_unifiedServiceRunner`: flatten the error to a
clean message; for `generateObject`, rewrite recognized tool-use
capability failures into the targeted message naming model and role. -/
def catchTransform (serviceType : ServiceType) (initialRole : String)
    (providerNameO modelIdO : Option String) (e : JsError) : JsError :=
  let cleanMessage := extractErrorMessage e
  if serviceType == .generateObject && toolUseUnsupportedMsg (lowerStr cleanMessage) then
    mkErr (toolSupportErrorMsg modelIdO providerNameO initialRole)
  else mkErr cleanMessage

/-- Token usage as reported by a provider adapter. -/
structure Usage where
  inputTokens : Option Nat
  outputTokens : Option Nat
deriving Repr, DecidableEq

/-- A provider adapter's response object: `text` (generateText), `object`
(generateObject) and optional `usage`. A stream handle is the response
object itself. -/
structure ProviderResponse where
  text : Option String
  object : Option Json
  usage : Option Usage

/-- The provider-neutral request built once per call and handed to the
provider function: the destructured named fields plus `restMaxRetries`,
the `maxRetries` leftover that `...restApiParams` spreads in. -/
structure CallParams where
  apiKey : String
  modelId : String
  maxTokens : Int
  temperature : Rat
  messages : List Message
  baseUrl : Option String
  schema : Option Json
  objectName : Option String
  restMaxRetries : Option Nat

/-- The extracted main result: `providerResponse.text`,
`providerResponse.object`, or the whole response for streams. -/
inductive MainResult where
  | fromText : Option String → MainResult
  | fromObject : Option Json → MainResult
  | fromResponse : ProviderResponse → MainResult

/-- Main-result extraction switch of `_unifiedServiceRunner`. -/
def extractMainResult (serviceType : ServiceType) (r : ProviderResponse) : MainResult :=
  match serviceType with
  | .generateText => .fromText r.text
  | .generateObject => .fromObject r.object
  | .streamText => .fromResponse r

/-! ## Telemetry recorder (`logAiUsage`, `_getCostForModel`) -/

/-- Input record of `logAiUsage`. -/
structure TelemetryInput where
  userId : String
  commandName : String
  providerName : String
  modelId : String
  inputTokens : Option Nat
  outputTokens : Option Nat
  outputType : String
deriving Repr, DecidableEq

/-- The UsageRecord assembled by `logAiUsage`. -/
structure TelemetryData where
  timestamp : String
  userId : String
  commandName : String
  modelUsed : String
  providerName : String
  inputTokens : Nat
  outputTokens : Nat
  totalTokens : Nat
  totalCost : Rat
  currency : String
deriving Repr, DecidableEq

/-- Entry of `MODEL_MAP`: per-million-token pricing, possibly absent. -/
structure CostPer1M where
  input : Option Rat
  output : Option Rat
  currency : Option String
deriving Repr, DecidableEq

/-- A model listed in `MODEL_MAP` under some provider. -/
structure ModelEntry where
  id : String
  costPer1M : Option CostPer1M
deriving Repr, DecidableEq

/-- The static pricing table `MODEL_MAP`: provider name to model list. -/
abbrev ModelMap := List (String × List ModelEntry)

/-- Cost lookup result of `_getCostForModel`. -/
structure CostInfo where
  inputCost : Rat
  outputCost : Rat
  currency : String
deriving Repr, DecidableEq

/-- Shallow embedding of `_getCostForModel`: missing provider, missing
model or missing cost data all default to zero cost in USD (a warning is
logged, no error is raised). -/
def getCostForModel (mm : ModelMap) (providerName modelId : String) : CostInfo :=
  match mm.find? (fun kv => kv.1 == providerName) with
  | none => { inputCost := 0, outputCost := 0, currency := "USD" }
  | some pe =>
    match pe.2.find? (fun m => m.id == modelId) with
    | none => { inputCost := 0, outputCost := 0, currency := "USD" }
    | some m =>
      match m.costPer1M with
      | none => { inputCost := 0, outputCost := 0, currency := "USD" }
      | some c =>
        { inputCost := c.input.getD 0, outputCost := c.output.getD 0,
          currency :=
            match c.currency with
            | none => "USD"
            | some cur => if cur == "" then "USD" else cur }

/-- Rounding to 6 decimal places, as `parseFloat(x.toFixed(6))` does. -/
def round6 (q : Rat) : Rat := ((round (q * 1000000) : Int) : Rat) / 1000000

/-- JS `x || 0` on a possibly-absent token count. -/
def natOr0 (o : Option Nat) : Nat := o.getD 0

/-- Shallow embedding of `logAiUsage`. The whole body sits in a
`try/catch` that returns `null` on any internal failure; the one genuinely
effectful step, `new Date().toISOString()`, is modelled by `clock`, so a
failing clock exercises the catch path. -/
def logAiUsage (mm : ModelMap) (clock : Except String String) (inp : TelemetryInput) :
    Option TelemetryData :=
  match clock with
  | .error _ => none
  | .ok timestamp =>
    let totalTokens := natOr0 inp.inputTokens + natOr0 inp.outputTokens
    let c := getCostForModel mm inp.providerName inp.modelId
    let totalCost : Rat :=
      ((natOr0 inp.inputTokens : Rat) / 1000000) * c.inputCost +
        ((natOr0 inp.outputTokens : Rat) / 1000000) * c.outputCost
    some { timestamp := timestamp, userId := inp.userId, commandName := inp.commandName,
           modelUsed := inp.modelId, providerName := inp.providerName,
           inputTokens := natOr0 inp.inputTokens, outputTokens := natOr0 inp.outputTokens,
           totalTokens := totalTokens, totalCost := round6 totalCost,
           currency := c.currency }

/-- The telemetry step as wired in the runner's success path: an `await
logAiUsage(...)` which, `logAiUsage` never throwing, always resolves. -/
def logAiUsageService (mm : ModelMap) (clock : Except String String) :
    TelemetryInput → Except JsError (Option TelemetryData) :=
  fun inp => .ok (logAiUsage mm clock inp)

/-! ## The unified service runner -/

/-- Per-call parameters of `_unifiedServiceRunner` after destructuring:
role, prompts, object-generation extras, telemetry labels, and the
`...restApiParams` leftover (which carries `maxRetries` when
`generateObjectService` forwards its default). -/
structure RunnerParams where
  role : String
  systemPrompt : Option String
  prompt : Option String
  schema : Option Json
  objectName : Option String
  commandName : String
  outputType : String
  restMaxRetries : Option Nat

/-- The `{mainResult, telemetryData}` object returned on success. -/
structure RunResult where
  mainResult : MainResult
  telemetryData : Option TelemetryData

/-- Observable outcome of one runner call: the returned value or thrown
error, how many times the provider function was invoked, and the request
it was invoked with (ghost data recording the single call site). -/
structure RunOutcome where
  result : Except JsError RunResult
  invocations : Nat
  sentRequest : Option CallParams

/-- Message-array construction: optional system message first (skipped
when `systemPrompt` is falsy), then the mandatory user message. -/
def buildMessages (systemPrompt : Option String) (prompt : String) : List Message :=
  (if strTruthy systemPrompt then [{ role := "system", content := systemPrompt.getD "" }]
   else []) ++ [{ role := "user", content := prompt }]

/-- Membership in `PROVIDER_FUNCTIONS`: only `openai` is registered, and
its entry implements all three service types. -/
def providerFnSetExists (providerName : String) : Bool :=
  lowerStr providerName == "openai"

/-- The `callParams` object built by `_unifiedServiceRunner`: named fields
plus `schema`/`objectName` only for `generateObject`, and the spread
`...restApiParams`. -/
def mkCallParams (env : ConfigEnv) (serviceType : ServiceType) (p : RunnerParams)
    (apiKey modelId : String) : CallParams :=
  { apiKey := apiKey, modelId := modelId,
    maxTokens := (env.roleParams p.role).maxTokens,
    temperature := (env.roleParams p.role).temperature,
    messages := buildMessages p.systemPrompt (p.prompt.getD ""),
    baseUrl := env.baseUrlForRole p.role,
    schema := if serviceType == .generateObject then p.schema else none,
    objectName := if serviceType == .generateObject then p.objectName else none,
    restMaxRetries := p.restMaxRetries }

/-- The success tail of `_unifiedServiceRunner`: when a userId is present
and the response carries usage data, attempt telemetry (guarded by its own
`try/catch` that degrades to `telemetryData: null`); otherwise return the
extracted main result with `telemetryData: null`. -/
def successOutcome (env : ConfigEnv) (serviceType : ServiceType) (p : RunnerParams)
    (providerName modelId : String)
    (telemetryFn : TelemetryInput → Except JsError (Option TelemetryData))
    (resp : ProviderResponse) (inv : Nat) (sent : Option CallParams) : RunOutcome :=
  let finalMainResult := extractMainResult serviceType resp
  match resp.usage, strTruthy env.userId with
  | some u, true =>
    let inp : TelemetryInput :=
      { userId := env.userId.getD "", commandName := p.commandName,
        providerName := providerName, modelId := modelId,
        inputTokens := u.inputTokens, outputTokens := u.outputTokens,
        outputType := p.outputType }
    match telemetryFn inp with
    | .ok td =>
      { result := .ok { mainResult := finalMainResult, telemetryData := td },
        invocations := inv, sentRequest := sent }
    | .error _ =>
      { result := .ok { mainResult := finalMainResult, telemetryData := none },
        invocations := inv, sentRequest := sent }
  | _, _ =>
    { result := .ok { mainResult := finalMainResult, telemetryData := none },
      invocations := inv, sentRequest := sent }

/-- Shallow embedding of `_unifiedServiceRunner`: resolve role to
provider/model, check configuration, provider support and credential,
build the message array, delegate to the retry executor, then extract the
main result and attach telemetry; every thrown error passes through the
catch block (`catchTransform`). The source's further check that the
provider implements the requested service type can never fire: the only
registered provider, `openai`, implements all three operations. -/
def unifiedServiceRunner (env : ConfigEnv) (serviceType : ServiceType) (p : RunnerParams)
    (providerFn : CallParams → Nat → Except JsError ProviderResponse)
    (telemetryFn : TelemetryInput → Except JsError (Option TelemetryData)) : RunOutcome :=
  let rm := resolveRoleModel env.config p.role
  let providerNameO := rm.1
  let modelIdO := rm.2
  let throwOut : JsError → Nat → Option CallParams → RunOutcome := fun e inv sent =>
    { result := .error (catchTransform serviceType p.role providerNameO modelIdO e),
      invocations := inv, sentRequest := sent }
  if !(strTruthy providerNameO && strTruthy modelIdO) then
    throwOut (mkErr ("Critical configuration missing for role " ++ sq p.role ++
      ": Provider: " ++ jsShow providerNameO ++ ", Model: " ++ jsShow modelIdO)) 0 none
  else
    let providerName := providerNameO.getD ""
    let modelId := modelIdO.getD ""
    if !providerFnSetExists providerName then
      throwOut (mkErr ("Unsupported provider configured: " ++ providerName)) 0 none
    else
      match resolveApiKey env.envLookup (lowerStr providerName) with
      | .error e => throwOut e 0 none
      | .ok apiKeyO =>
        match apiKeyO with
        | none =>
          throwOut (mkErr ("API key missing for provider " ++ sq providerName ++ ".")) 0 none
        | some apiKey =>
          if !(strTruthy p.prompt) then
            throwOut (mkErr "User prompt content is missing.") 0 none
          else
            let callParams := mkCallParams env serviceType p apiKey modelId
            let attempt := attemptProviderCallWithRetries (providerFn callParams)
            match attempt.1 with
            | .error e => throwOut e attempt.2 (some callParams)
            | .ok resp =>
              successOutcome env serviceType p providerName modelId telemetryFn resp
                attempt.2 (some callParams)

/-! ## Public service facades -/

/-- Caller-side parameters of the three facade entry points. -/
structure FacadeParams where
  role : String
  systemPrompt : Option String
  prompt : Option String
  schema : Option Json
  objectName : Option String
  maxRetries : Option Nat
  commandName : String
  outputType : Option String

/-- Facade `generateTextService`: fixes `outputType='cli'` and delegates. -/
def generateTextService (env : ConfigEnv) (p : FacadeParams)
    (providerFn : CallParams → Nat → Except JsError ProviderResponse)
    (telemetryFn : TelemetryInput → Except JsError (Option TelemetryData)) : RunOutcome :=
  unifiedServiceRunner env .generateText
    { role := p.role, systemPrompt := p.systemPrompt, prompt := p.prompt,
      schema := p.schema, objectName := p.objectName, commandName := p.commandName,
      outputType := p.outputType.getD "cli", restMaxRetries := p.maxRetries }
    providerFn telemetryFn

/-- Facade `streamTextService`: fixes `outputType='cli'` and delegates. -/
def streamTextService (env : ConfigEnv) (p : FacadeParams)
    (providerFn : CallParams → Nat → Except JsError ProviderResponse)
    (telemetryFn : TelemetryInput → Except JsError (Option TelemetryData)) : RunOutcome :=
  unifiedServiceRunner env .streamText
    { role := p.role, systemPrompt := p.systemPrompt, prompt := p.prompt,
      schema := p.schema, objectName := p.objectName, commandName := p.commandName,
      outputType := p.outputType.getD "cli", restMaxRetries := p.maxRetries }
    providerFn telemetryFn

/-- Facade `generateObjectService`: fixes `objectName='generated_object'`,
`maxRetries=3` and `outputType='cli'`, then delegates; `maxRetries` is not
destructured by the runner and so rides along in `restApiParams`. -/
def generateObjectService (env : ConfigEnv) (p : FacadeParams)
    (providerFn : CallParams → Nat → Except JsError ProviderResponse)
    (telemetryFn : TelemetryInput → Except JsError (Option TelemetryData)) : RunOutcome :=
  unifiedServiceRunner env .generateObject
    { role := p.role, systemPrompt := p.systemPrompt, prompt := p.prompt,
      schema := p.schema, objectName := some (p.objectName.getD "generated_object"),
      commandName := p.commandName, outputType := p.outputType.getD "cli",
      restMaxRetries := some (p.maxRetries.getD 3) }
    providerFn telemetryFn

/-! ## The OpenAI adapter's view of a request -/

/-- The parameter fields destructured by `generateOpenAIObject` (and the
other adapter operations) in `src/ai-providers/openai.js`: everything in
`callParams` except the spread-in leftovers such as `maxRetries`. -/
structure AdapterArgs where
  apiKey : String
  modelId : String
  messages : List Message
  schema : Option Json
  objectName : Option String
  maxTokens : Int
  temperature : Rat
  baseUrl : Option String

/-- Projection of a built request onto the fields the OpenAI adapter
actually reads; `restMaxRetries` is dropped, never read. -/
def adapterView (cp : CallParams) : AdapterArgs :=
  { apiKey := cp.apiKey, modelId := cp.modelId, messages := cp.messages,
    schema := cp.schema, objectName := cp.objectName, maxTokens := cp.maxTokens,
    temperature := cp.temperature, baseUrl := cp.baseUrl }

/-! ## Structural lemmas about the runner -/

theorem attemptProviderCall_first_ok {α : Type} (fn : Nat → Except JsError α) (r : α)
    (h : fn 0 = .ok r) : attemptProviderCallWithRetries fn = (.ok r, 1) := by
  rw [attemptProviderCallWithRetries]
  show attemptAux fn 0 2 = _
  simp [attemptAux, h]

theorem attemptAux_count_pos {α : Type} (fn : Nat → Except JsError α) :
    ∀ budget idx, 1 ≤ (attemptAux fn idx budget).2 := by
  intro budget
  cases budget with
  | zero => intro idx; simp [attemptAux]
  | succ b =>
      intro idx
      simp only [attemptAux]
      cases fn idx with
      | ok r => simp
      | error e => by_cases h : isRetryableError e = true <;> simp [h]

theorem successOutcome_invocations (env : ConfigEnv) (st : ServiceType) (p : RunnerParams)
    (providerName modelId : String)
    (tel : TelemetryInput → Except JsError (Option TelemetryData))
    (resp : ProviderResponse) (inv : Nat) (sent : Option CallParams) :
    (successOutcome env st p providerName modelId tel resp inv sent).invocations = inv := by
  unfold successOutcome
  rcases resp.usage with _ | u <;> rcases h : strTruthy env.userId <;> simp
  rcases tel _ with td | e <;> simp

theorem successOutcome_sentRequest (env : ConfigEnv) (st : ServiceType) (p : RunnerParams)
    (providerName modelId : String)
    (tel : TelemetryInput → Except JsError (Option TelemetryData))
    (resp : ProviderResponse) (inv : Nat) (sent : Option CallParams) :
    (successOutcome env st p providerName modelId tel resp inv sent).sentRequest = sent := by
  unfold successOutcome
  rcases resp.usage with _ | u <;> rcases h : strTruthy env.userId <;> simp
  rcases tel _ with td | e <;> simp

/-- Once role resolution, configuration, provider support, credential and
prompt checks all pass, the runner is exactly: build the request, run the
retry loop, then either flatten the error through the catch block or take
the success tail. -/
theorem runner_happy_path (env : ConfigEnv) (st : ServiceType) (p : RunnerParams)
    (providerFn : CallParams → Nat → Except JsError ProviderResponse)
    (telemetryFn : TelemetryInput → Except JsError (Option TelemetryData))
    (providerName modelId apiKey : String)
    (hres : resolveRoleModel env.config p.role = (some providerName, some modelId))
    (hpn : providerName ≠ "") (hmid : modelId ≠ "")
    (hsup : providerFnSetExists providerName = true)
    (hkey : resolveApiKey env.envLookup (lowerStr providerName) = .ok (some apiKey))
    (hprompt : strTruthy p.prompt = true) :
    unifiedServiceRunner env st p providerFn telemetryFn =
      (let callParams := mkCallParams env st p apiKey modelId
       let attempt := attemptProviderCallWithRetries (providerFn callParams)
       match attempt.1 with
       | .error e =>
         { result := .error (catchTransform st p.role (some providerName) (some modelId) e),
           invocations := attempt.2, sentRequest := some callParams }
       | .ok resp =>
         successOutcome env st p providerName modelId telemetryFn resp
           attempt.2 (some callParams)) := by
  unfold unifiedServiceRunner
  simp only [hres, strTruthy, Option.getD_some]
  have hpn' : (providerName == "") = false := by simp [hpn]
  have hmid' : (modelId == "") = false := by simp [hmid]
  simp only [hpn', hmid', Bool.not_false, Bool.and_self, Bool.not_true, hsup, hkey, hprompt,
    Bool.not_eq_true', Bool.not_eq_false]
  simp
  intro hfalse
  have hcontra : strTruthy p.prompt = false := hfalse
  rw [hprompt] at hcontra
  exact absurd hcontra (by simp)

/-- Every run either fails before the provider call (no invocation, no
request sent, an error thrown) or reaches the retry loop with the built
request, in which case the prompt was truthy and the invocation count is
the loop's. -/
theorem runner_cases (env : ConfigEnv) (st : ServiceType) (p : RunnerParams)
    (fn : CallParams → Nat → Except JsError ProviderResponse)
    (tel : TelemetryInput → Except JsError (Option TelemetryData)) :
    ((unifiedServiceRunner env st p fn tel).invocations = 0 ∧
      (unifiedServiceRunner env st p fn tel).sentRequest = none ∧
      ∃ e, (unifiedServiceRunner env st p fn tel).result = .error e) ∨
    (∃ apiKey,
      strTruthy p.prompt = true ∧
      (unifiedServiceRunner env st p fn tel).invocations =
        (attemptProviderCallWithRetries (fn (mkCallParams env st p apiKey
          ((resolveRoleModel env.config p.role).2.getD "")))).2 ∧
      (unifiedServiceRunner env st p fn tel).sentRequest =
        some (mkCallParams env st p apiKey
          ((resolveRoleModel env.config p.role).2.getD ""))) := by
  unfold unifiedServiceRunner
  dsimp only
  split
  · exact Or.inl ⟨rfl, rfl, _, rfl⟩
  · split
    · exact Or.inl ⟨rfl, rfl, _, rfl⟩
    · split
      · exact Or.inl ⟨rfl, rfl, _, rfl⟩
      · split
        · exact Or.inl ⟨rfl, rfl, _, rfl⟩
        · rename_i apiKey hkeyEq
          split
          · exact Or.inl ⟨rfl, rfl, _, rfl⟩
          · rename_i hprompt
            refine Or.inr ⟨apiKey, ?_, ?_, ?_⟩
            · simpa using hprompt
            · split
              · rfl
              · rw [successOutcome_invocations]
            · split
              · rfl
              · rw [successOutcome_sentRequest]


theorem successOutcome_result_eq (env : ConfigEnv) (st : ServiceType)
    (p1 p2 : RunnerParams) (providerName modelId : String)
    (tel : TelemetryInput → Except JsError (Option TelemetryData))
    (resp : ProviderResponse) (inv1 inv2 : Nat) (sent1 sent2 : Option CallParams)
    (hcn : p1.commandName = p2.commandName) (hot : p1.outputType = p2.outputType) :
    (successOutcome env st p1 providerName modelId tel resp inv1 sent1).result =
      (successOutcome env st p2 providerName modelId tel resp inv2 sent2).result := by
  unfold successOutcome
  rcases resp.usage with _ | u <;> rcases h : strTruthy env.userId <;> simp [hcn, hot]
  rcases tel _ with td | e <;> simp

theorem runner_rest_opaque (env : ConfigEnv) (st : ServiceType) (p : RunnerParams)
    (r1 r2 : Option Nat) (net : AdapterArgs → Nat → Except JsError ProviderResponse)
    (tel : TelemetryInput → Except JsError (Option TelemetryData)) :
    (unifiedServiceRunner env st { p with restMaxRetries := r1 }
        (fun cp i => net (adapterView cp) i) tel).result =
      (unifiedServiceRunner env st { p with restMaxRetries := r2 }
        (fun cp i => net (adapterView cp) i) tel).result ∧
    (unifiedServiceRunner env st { p with restMaxRetries := r1 }
        (fun cp i => net (adapterView cp) i) tel).invocations =
      (unifiedServiceRunner env st { p with restMaxRetries := r2 }
        (fun cp i => net (adapterView cp) i) tel).invocations := by
  unfold unifiedServiceRunner
  dsimp only [mkCallParams, adapterView]
  constructor <;>
    (split <;> try rfl) <;>
    (split <;> try rfl) <;>
    (split <;> try rfl) <;>
    (split <;> try rfl) <;>
    (split <;> try rfl) <;>
    (split <;> try rfl)
  · exact successOutcome_result_eq _ _ _ _ _ _ _ _ _ _ _ _ rfl rfl
  · rw [successOutcome_invocations, successOutcome_invocations]

theorem runner_invocations_le (env : ConfigEnv) (st : ServiceType) (p : RunnerParams)
    (fn : CallParams → Nat → Except JsError ProviderResponse)
    (tel : TelemetryInput → Except JsError (Option TelemetryData)) :
    (unifiedServiceRunner env st p fn tel).invocations ≤ MAX_RETRIES + 1 := by
  rcases runner_cases env st p fn tel with ⟨h0, _, _⟩ | ⟨apiKey, _, hinv, _⟩
  · omega
  · rw [hinv]
    exact attemptAux_count_le _ MAX_RETRIES 0

/-- C10: through every facade entry point the number of provider-function
invocations is bounded by the module constant `MAX_RETRIES + 1 = 3`, and
the `maxRetries` parameter accepted (and defaulted to 3) by
`generateObjectService` has no effect on the outcome or on the attempt
count when the provider function is the OpenAI adapter, which reads only
the `adapterView` fields of the request and ignores `maxRetries`. -/
theorem facade_attempts_bounded_maxretries_ignored (env : ConfigEnv) (p : FacadeParams)
    (net : AdapterArgs → Nat → Except JsError ProviderResponse)
    (tel : TelemetryInput → Except JsError (Option TelemetryData))
    (m1 m2 : Option Nat) :
    ((generateObjectService env { p with maxRetries := m1 }
        (fun cp i => net (adapterView cp) i) tel).result =
      (generateObjectService env { p with maxRetries := m2 }
        (fun cp i => net (adapterView cp) i) tel).result ∧
     (generateObjectService env { p with maxRetries := m1 }
        (fun cp i => net (adapterView cp) i) tel).invocations =
      (generateObjectService env { p with maxRetries := m2 }
        (fun cp i => net (adapterView cp) i) tel).invocations) ∧
    (∀ (fn : CallParams → Nat → Except JsError ProviderResponse)
       (tel2 : TelemetryInput → Except JsError (Option TelemetryData)),
      (generateTextService env p fn tel2).invocations ≤ MAX_RETRIES + 1 ∧
      (streamTextService env p fn tel2).invocations ≤ MAX_RETRIES + 1 ∧
      (generateObjectService env p fn tel2).invocations ≤ MAX_RETRIES + 1) ∧
    MAX_RETRIES + 1 = 3 := by
  refine ⟨?_, ?_, rfl⟩
  · unfold generateObjectService
    exact runner_rest_opaque env .generateObject
      { role := p.role, systemPrompt := p.systemPrompt, prompt := p.prompt,
        schema := p.schema, objectName := some (p.objectName.getD "generated_object"),
        commandName := p.commandName, outputType := p.outputType.getD "cli",
        restMaxRetries := none }
      (some (m1.getD 3)) (some (m2.getD 3)) net tel
  · intro fn tel2
    exact ⟨runner_invocations_le _ _ _ _ _, runner_invocations_le _ _ _ _ _,
      runner_invocations_le _ _ _ _ _⟩


theorem buildMessages_ends_with_user (sp : Option String) (pr : String) :
    buildMessages sp pr ≠ [] ∧
    (buildMessages sp pr).getLast? = some { role := "user", content := pr } := by
  unfold buildMessages
  by_cases h : strTruthy sp = true <;> simp [h]

/-- C4: a missing or empty prompt makes the runner throw before the
provider function is ever invoked, for every service type; and every
request actually handed to a provider function carries a non-empty
messages array whose last element is the user message with the prompt. -/
theorem missing_prompt_fails_before_provider (env : ConfigEnv) (st : ServiceType)
    (p : RunnerParams) (fn : CallParams → Nat → Except JsError ProviderResponse)
    (tel : TelemetryInput → Except JsError (Option TelemetryData)) :
    (strTruthy p.prompt = false →
      (unifiedServiceRunner env st p fn tel).invocations = 0 ∧
      (unifiedServiceRunner env st p fn tel).sentRequest = none ∧
      ∃ e, (unifiedServiceRunner env st p fn tel).result = .error e) ∧
    (∀ cp, (unifiedServiceRunner env st p fn tel).sentRequest = some cp →
      cp.messages ≠ [] ∧
      cp.messages.getLast? = some { role := "user", content := p.prompt.getD "" }) := by
  constructor
  · intro hp
    rcases runner_cases env st p fn tel with h | ⟨k, hpt, _, _⟩
    · exact h
    · rw [hp] at hpt
      exact absurd hpt (by simp)
  · intro cp hcp
    rcases runner_cases env st p fn tel with ⟨_, hnone, _⟩ | ⟨k, hpt, _, hsent⟩
    · rw [hnone] at hcp
      cases hcp
    · rw [hsent] at hcp
      injection hcp with hcp
      subst hcp
      show (mkCallParams env st p k _).messages ≠ [] ∧
        (mkCallParams env st p k _).messages.getLast? = _
      unfold mkCallParams
      exact buildMessages_ends_with_user p.systemPrompt (p.prompt.getD "")


/-- C1: with a valid role, non-empty prompt, correctly configured provider
and userId, and a provider function that succeeds, the runner returns the
adapter's raw payload as `mainResult` (the `text` field for generateText,
the `object` field for generateObject, the whole response object for
streamText) and non-null `telemetryData` whenever the response carries
usage data. -/
theorem runner_success_returns_adapter_payload (env : ConfigEnv) (st : ServiceType)
    (p : RunnerParams) (providerFn : CallParams → Nat → Except JsError ProviderResponse)
    (mm : ModelMap) (ts : String)
    (providerName modelId apiKey : String) (resp : ProviderResponse)
    (hrole : p.role = "main" ∨ p.role = "research" ∨ p.role = "fallback")
    (hres : resolveRoleModel env.config p.role = (some providerName, some modelId))
    (hpn : providerName ≠ "") (hmid : modelId ≠ "")
    (hsup : providerFnSetExists providerName = true)
    (hkey : resolveApiKey env.envLookup (lowerStr providerName) = .ok (some apiKey))
    (hprompt : strTruthy p.prompt = true)
    (huser : strTruthy env.userId = true)
    (hfn : ∀ cp i, providerFn cp i = .ok resp) :
    ∃ rr, (unifiedServiceRunner env st p providerFn
        (logAiUsageService mm (.ok ts))).result = .ok rr ∧
      rr.mainResult = (match st with
        | .generateText => MainResult.fromText resp.text
        | .generateObject => MainResult.fromObject resp.object
        | .streamText => MainResult.fromResponse resp) ∧
      (resp.usage.isSome = true → rr.telemetryData.isSome = true) := by
  rw [runner_happy_path env st p providerFn _ providerName modelId apiKey hres hpn hmid
    hsup hkey hprompt]
  dsimp only
  rw [attemptProviderCall_first_ok _ resp (hfn _ 0)]
  dsimp only
  unfold successOutcome
  rcases husage : resp.usage with _ | u <;> simp only [husage, huser]
  · exact ⟨_, rfl, by cases st <;> rfl, by simp⟩
  · simp only [logAiUsageService, logAiUsage]
    exact ⟨_, rfl, by cases st <;> rfl, by simp⟩


/-! ## Concrete instances used by witnesses and counterexamples -/

/-- Concrete environment: openai models on every role (mirroring the
repository's example `.taskmasterconfig`), the API key set, userId set. -/
def sampleEnv : ConfigEnv :=
  { config :=
      { main := { provider := some "openai", modelId := some "gpt-4o" },
        research := { provider := some "openai",
                      modelId := some "gemini-2.5-flash-preview-05-20" },
        fallback := { provider := some "openai",
                      modelId := some "gemini-2.5-flash-preview-05-20" } },
    userId := some "1234567890",
    roleParams := fun _ => { maxTokens := 100000, temperature := 1 / 5 },
    baseUrlForRole := fun _ => none,
    envLookup := fun name => if name == "OPENAI_API_KEY" then some "sk-test" else none }

/-- Same environment with no API key available anywhere. -/
def sampleEnvNoKey : ConfigEnv :=
  { config := sampleEnv.config, userId := sampleEnv.userId,
    roleParams := sampleEnv.roleParams, baseUrlForRole := sampleEnv.baseUrlForRole,
    envLookup := fun _ => none }

/-- Concrete per-call parameters with role `main` and a prompt. -/
def sampleParams : RunnerParams :=
  { role := "main", systemPrompt := some "You are helpful.",
    prompt := some "Generate tasks.", schema := none,
    objectName := some "tasks_data", commandName := "parse-prd",
    outputType := "cli", restMaxRetries := some 3 }

/-- Concrete successful provider response with usage data. -/
def sampleResponse : ProviderResponse :=
  { text := some "Generated text.", object := none,
    usage := some { inputTokens := some 700, outputTokens := some 300 } }

/-- Concrete pricing table entry for the cost example. -/
def sampleModelMap : ModelMap :=
  [("openai",
    [{ id := "gpt-4o",
       costPer1M := some { input := some 5, output := some 15,
                           currency := some "USD" } }])]

/-- Witness for C1 at a fully concrete call. -/
theorem runner_success_returns_adapter_payload_witness :
    ∃ rr, (unifiedServiceRunner sampleEnv .generateText sampleParams
        (fun _ _ => .ok sampleResponse)
        (logAiUsageService sampleModelMap (.ok "2025-01-01T00:00:00.000Z"))).result
        = .ok rr ∧
      rr.mainResult = (match ServiceType.generateText with
        | .generateText => MainResult.fromText sampleResponse.text
        | .generateObject => MainResult.fromObject sampleResponse.object
        | .streamText => MainResult.fromResponse sampleResponse) ∧
      (sampleResponse.usage.isSome = true → rr.telemetryData.isSome = true) :=
  runner_success_returns_adapter_payload sampleEnv .generateText sampleParams
    (fun _ _ => .ok sampleResponse) sampleModelMap "2025-01-01T00:00:00.000Z"
    "openai" "gpt-4o" "sk-test" sampleResponse
    (Or.inl rfl) rfl (by decide) (by decide) (by decide) rfl rfl rfl
    (fun _ _ => rfl)

/-- Witness for C4: a promptless call makes zero invocations and throws;
a prompted call's sent request ends with the user message. -/
theorem missing_prompt_fails_before_provider_witness :
    ((unifiedServiceRunner sampleEnv .generateText
        { role := "main", systemPrompt := none, prompt := none, schema := none,
          objectName := none, commandName := "parse-prd", outputType := "cli",
          restMaxRetries := none }
        (fun _ _ => .ok sampleResponse)
        (logAiUsageService sampleModelMap (.ok "t"))).invocations = 0 ∧
      (unifiedServiceRunner sampleEnv .generateText
        { role := "main", systemPrompt := none, prompt := none, schema := none,
          objectName := none, commandName := "parse-prd", outputType := "cli",
          restMaxRetries := none }
        (fun _ _ => .ok sampleResponse)
        (logAiUsageService sampleModelMap (.ok "t"))).sentRequest = none ∧
      ∃ e, (unifiedServiceRunner sampleEnv .generateText
        { role := "main", systemPrompt := none, prompt := none, schema := none,
          objectName := none, commandName := "parse-prd", outputType := "cli",
          restMaxRetries := none }
        (fun _ _ => .ok sampleResponse)
        (logAiUsageService sampleModelMap (.ok "t"))).result = .error e) ∧
    ((mkCallParams sampleEnv .generateText sampleParams "sk-test" "gpt-4o").messages ≠ [] ∧
      (mkCallParams sampleEnv .generateText sampleParams "sk-test"
        "gpt-4o").messages.getLast? =
        some { role := "user", content := sampleParams.prompt.getD "" }) := by
  constructor
  · exact (missing_prompt_fails_before_provider sampleEnv .generateText
      { role := "main", systemPrompt := none, prompt := none, schema := none,
        objectName := none, commandName := "parse-prd", outputType := "cli",
        restMaxRetries := none }
      (fun _ _ => .ok sampleResponse)
      (logAiUsageService sampleModelMap (.ok "t"))).1 rfl
  · exact (missing_prompt_fails_before_provider sampleEnv .generateText sampleParams
      (fun _ _ => .ok sampleResponse)
      (logAiUsageService sampleModelMap (.ok "t"))).2
      (mkCallParams sampleEnv .generateText sampleParams "sk-test" "gpt-4o") rfl


theorem orUnknown_some (s : String) (h : s ≠ "") : orUnknown (some s) = s := by
  simp [orUnknown, strTruthy, h]

theorem catchTransform_plain (st : ServiceType) (role : String)
    (pn mid : Option String) (m : String)
    (hm : m ≠ "")
    (hph : toolUseUnsupportedMsg (lowerStr m) = false) :
    catchTransform st role pn mid (mkErr m) = mkErr m := by
  unfold catchTransform extractErrorMessage mkErr
  simp [strTruthy, hm, hph]

theorem infixAppL {α : Type} {p l : List α} (x : List α) (h : p <:+: l) :
    p <:+: x ++ l := by
  obtain ⟨s, t, rfl⟩ := h
  exact ⟨x ++ s, t, by simp⟩

theorem infixAppR {α : Type} {p l : List α} (x : List α) (h : p <:+: l) :
    p <:+: l ++ x := by
  obtain ⟨s, t, rfl⟩ := h
  exact ⟨s, t ++ x, by simp⟩

theorem infixHeadR {α : Type} (l x : List α) : l <:+: l ++ x :=
  ⟨[], x, by simp⟩

theorem toolSupportErrorMsg_names_model_and_role (modelId providerName role : String)
    (hmid : modelId ≠ "") (hpn : providerName ≠ "") :
    containsSub (toolSupportErrorMsg (some modelId) (some providerName) role) modelId = true ∧
    containsSub (toolSupportErrorMsg (some modelId) (some providerName) role) role = true := by
  unfold toolSupportErrorMsg sq
  rw [orUnknown_some _ hmid, orUnknown_some _ hpn]
  constructor <;> rw [containsSub, hasInfixChars_iff] <;>
    simp only [String.toList, String.data_append, List.append_assoc]
  · exact infixAppL _ (infixAppL _ (infixHeadR _ _))
  · exact infixAppL _ (infixAppL _ (infixAppL _ (infixAppL _ (infixAppL _ (infixAppL _
      (infixAppL _ (infixAppL _ (infixAppL _ (infixAppL _ (infixAppL _ (infixAppL _
      (infixAppL _ (infixAppL _ (infixHeadR _ _))))))))))))))


/-- C6: a `generateObject` call whose provider failure message carries any
of the recognized tool-use-unsupported phrasings surfaces the targeted
error naming the exact configured model id and the requested role, in
place of the provider's generic message. -/
theorem generate_object_capability_error_names_model_and_role
    (env : ConfigEnv) (p : RunnerParams)
    (fn : CallParams → Nat → Except JsError ProviderResponse)
    (tel : TelemetryInput → Except JsError (Option TelemetryData))
    (providerName modelId apiKey : String) (e : JsError)
    (hres : resolveRoleModel env.config p.role = (some providerName, some modelId))
    (hpn : providerName ≠ "") (hmid : modelId ≠ "")
    (hsup : providerFnSetExists providerName = true)
    (hkey : resolveApiKey env.envLookup (lowerStr providerName) = .ok (some apiKey))
    (hprompt : strTruthy p.prompt = true)
    (hfn : ∀ cp i, fn cp i = .error e)
    (hph : toolUseUnsupportedMsg (lowerStr (extractErrorMessage e)) = true) :
    (unifiedServiceRunner env .generateObject p fn tel).result =
      .error (mkErr (toolSupportErrorMsg (some modelId) (some providerName) p.role)) ∧
    containsSub (toolSupportErrorMsg (some modelId) (some providerName) p.role)
      modelId = true ∧
    containsSub (toolSupportErrorMsg (some modelId) (some providerName) p.role)
      p.role = true := by
  refine ⟨?_,
    (toolSupportErrorMsg_names_model_and_role modelId providerName p.role hmid hpn).1,
    (toolSupportErrorMsg_names_model_and_role modelId providerName p.role hmid hpn).2⟩
  rw [runner_happy_path env .generateObject p fn tel providerName modelId apiKey hres hpn
    hmid hsup hkey hprompt]
  dsimp only
  have h1 : (attemptProviderCallWithRetries
      (fn (mkCallParams env .generateObject p apiKey modelId))).1 = .error e :=
    attemptAux_const_error _ e (fun i => hfn _ i) MAX_RETRIES 0
  simp only [h1]
  unfold catchTransform
  simp [hph]

/-- C5: when the configured provider requires a credential that the
lookup chain cannot supply, `_resolveApiKey` returns null rather than
throwing, and the runner then fails with an error naming the provider,
without invoking the provider function. -/
theorem missing_api_key_fails_named_no_call (env : ConfigEnv) (st : ServiceType)
    (p : RunnerParams) (fn : CallParams → Nat → Except JsError ProviderResponse)
    (tel : TelemetryInput → Except JsError (Option TelemetryData)) (modelId : String)
    (hres : resolveRoleModel env.config p.role = (some "openai", some modelId))
    (hmid : modelId ≠ "")
    (hkey : env.envLookup "OPENAI_API_KEY" = none ∨
      env.envLookup "OPENAI_API_KEY" = some "") :
    resolveApiKey env.envLookup "openai" = .ok none ∧
    (unifiedServiceRunner env st p fn tel).result =
      .error (mkErr ("API key missing for provider " ++ sq "openai" ++ ".")) ∧
    (unifiedServiceRunner env st p fn tel).invocations = 0 ∧
    (unifiedServiceRunner env st p fn tel).sentRequest = none := by
  have hr : resolveApiKey env.envLookup "openai" = .ok none := by
    rcases hkey with h | h <;> simp [resolveApiKey, keyMap, h]
  have hmid' : (modelId == "") = false := by simp [hmid]
  have hopenai : ("openai" == "") = false := by decide
  have hsup : providerFnSetExists "openai" = true := by decide
  have hlow : lowerStr "openai" = "openai" := by decide
  have houter : unifiedServiceRunner env st p fn tel =
      { result := .error (catchTransform st p.role (some "openai") (some modelId)
          (mkErr ("API key missing for provider " ++ sq "openai" ++ "."))),
        invocations := 0, sentRequest := none } := by
    unfold unifiedServiceRunner
    simp only [hres, strTruthy, Option.getD_some, hmid', hopenai, hsup, hlow, hr,
      Bool.not_false, Bool.and_self, Bool.not_true]
    simp
  rw [houter, catchTransform_plain st p.role (some "openai") (some modelId) _
    (by decide) (by decide)]
  exact ⟨hr, rfl, rfl, rfl⟩


/-- C8: telemetry failures never propagate to the caller: `logAiUsage`
returns null when its internal step fails, and even a telemetry function
that throws leaves the runner returning the untouched main result with
`telemetryData: null`. -/
theorem telemetry_failure_never_propagates (env : ConfigEnv) (st : ServiceType)
    (p : RunnerParams) (fn : CallParams → Nat → Except JsError ProviderResponse)
    (tel : TelemetryInput → Except JsError (Option TelemetryData))
    (providerName modelId apiKey : String) (resp : ProviderResponse) (terr : JsError)
    (hres : resolveRoleModel env.config p.role = (some providerName, some modelId))
    (hpn : providerName ≠ "") (hmid : modelId ≠ "")
    (hsup : providerFnSetExists providerName = true)
    (hkey : resolveApiKey env.envLookup (lowerStr providerName) = .ok (some apiKey))
    (hprompt : strTruthy p.prompt = true)
    (hfn : ∀ cp i, fn cp i = .ok resp)
    (husage : resp.usage.isSome = true)
    (huser : strTruthy env.userId = true)
    (htel : ∀ inp, tel inp = .error terr) :
    (∀ (mm : ModelMap) (m : String) (inp : TelemetryInput),
      logAiUsage mm (.error m) inp = none) ∧
    (unifiedServiceRunner env st p fn tel).result =
      .ok { mainResult := extractMainResult st resp, telemetryData := none } := by
  refine ⟨fun mm m inp => rfl, ?_⟩
  rw [runner_happy_path env st p fn tel providerName modelId apiKey hres hpn hmid hsup
    hkey hprompt]
  dsimp only
  rw [attemptProviderCall_first_ok _ resp (hfn _ 0)]
  dsimp only
  unfold successOutcome
  rcases husage2 : resp.usage with _ | u
  · exact absurd husage (by simp [husage2])
  · simp only [husage2, huser, htel]

/-- C7: the recorded `totalCost` is the per-million-token pricing formula
rounded to 6 decimal places; with input cost 5, output cost 15 and one
million tokens of each kind the cost is exactly 20; and a provider or
model absent from the pricing table yields zero costs without any error. -/
theorem telemetry_cost_formula (mm : ModelMap) (ts : String) (inp : TelemetryInput) :
    (∃ td, logAiUsage mm (.ok ts) inp = some td ∧
      td.totalCost = round6
        (((natOr0 inp.inputTokens : Rat) / 1000000) *
            (getCostForModel mm inp.providerName inp.modelId).inputCost +
          ((natOr0 inp.outputTokens : Rat) / 1000000) *
            (getCostForModel mm inp.providerName inp.modelId).outputCost)) ∧
    ((logAiUsage sampleModelMap (.ok "2025-01-01T00:00:00.000Z")
        { userId := "u", commandName := "c", providerName := "openai",
          modelId := "gpt-4o", inputTokens := some 1000000,
          outputTokens := some 1000000, outputType := "cli" }).map
        TelemetryData.totalCost = some 20) ∧
    (∀ pn mid, mm.find? (fun kv => kv.1 == pn) = none →
      getCostForModel mm pn mid =
        { inputCost := 0, outputCost := 0, currency := "USD" }) ∧
    (∀ pn mid pe, mm.find? (fun kv => kv.1 == pn) = some pe →
      pe.2.find? (fun m => m.id == mid) = none →
      getCostForModel mm pn mid =
        { inputCost := 0, outputCost := 0, currency := "USD" }) := by
  refine ⟨⟨_, rfl, rfl⟩, ?_, ?_, ?_⟩
  · have hc : getCostForModel sampleModelMap "openai" "gpt-4o" =
        { inputCost := 5, outputCost := 15, currency := "USD" } := rfl
    have harith : ((natOr0 (some 1000000) : Rat) / 1000000) * 5 +
        ((natOr0 (some 1000000) : Rat) / 1000000) * 15 = 20 := by
      norm_num [natOr0]
    have hr20 : round6 (20 : Rat) = 20 := by
      unfold round6
      rw [show ((20 : Rat) * 1000000) = ((20000000 : Int) : Rat) by norm_num,
        round_intCast]
      norm_num
    simp only [logAiUsage, Option.map, hc, harith, hr20]
  · intro pn mid h
    unfold getCostForModel
    rw [h]
  · intro pn mid pe h1 h2
    unfold getCostForModel
    rw [h1]
    simp only [h2]

/-- C3 counterexample: with the main role configured and an unknown role
string, the runner does not fail validation — it invokes the provider
function once and returns successfully. -/
theorem invalid_role_no_validation_error :
    (unifiedServiceRunner sampleEnv .generateText
      { role := "bogus", systemPrompt := some "You are helpful.",
        prompt := some "Generate tasks.", schema := none,
        objectName := some "tasks_data", commandName := "parse-prd",
        outputType := "cli", restMaxRetries := some 3 }
      (fun _ _ => .ok sampleResponse)
      (logAiUsageService sampleModelMap (.ok "t"))).invocations = 1 ∧
    ∃ rr, (unifiedServiceRunner sampleEnv .generateText
      { role := "bogus", systemPrompt := some "You are helpful.",
        prompt := some "Generate tasks.", schema := none,
        objectName := some "tasks_data", commandName := "parse-prd",
        outputType := "cli", restMaxRetries := some 3 }
      (fun _ _ => .ok sampleResponse)
      (logAiUsageService sampleModelMap (.ok "t"))).result = .ok rr :=
  ⟨rfl, _, rfl⟩

/-- C3 (amended): a role other than `main`, `research` or `fallback` is
not rejected by validation; the runner logs the unknown role and resolves
the main role's provider and model, and the call proceeds as configured
for `main`. -/
theorem unknown_role_defaults_to_main (role : String)
    (h1 : (role == "main") = false) (h2 : (role == "research") = false)
    (h3 : (role == "fallback") = false) :
    ∀ cfg : Config, resolveRoleModel cfg role = (cfg.main.provider, cfg.main.modelId) := by
  intro cfg
  simp [resolveRoleModel, h1, h2, h3]

/-- Witness for the amended C3 at the concrete role string `bogus`. -/
theorem unknown_role_defaults_to_main_witness :
    resolveRoleModel sampleEnv.config "bogus" =
      (sampleEnv.config.main.provider, sampleEnv.config.main.modelId) :=
  unknown_role_defaults_to_main "bogus" (by decide) (by decide) (by decide)
    sampleEnv.config

/-- Witness for C5: concrete environment with no API key set anywhere. -/
theorem missing_api_key_fails_named_no_call_witness :
    resolveApiKey sampleEnvNoKey.envLookup "openai" = .ok none ∧
    (unifiedServiceRunner sampleEnvNoKey .generateText sampleParams
      (fun _ _ => .ok sampleResponse)
      (logAiUsageService sampleModelMap (.ok "t"))).result =
      .error (mkErr ("API key missing for provider " ++ sq "openai" ++ ".")) ∧
    (unifiedServiceRunner sampleEnvNoKey .generateText sampleParams
      (fun _ _ => .ok sampleResponse)
      (logAiUsageService sampleModelMap (.ok "t"))).invocations = 0 ∧
    (unifiedServiceRunner sampleEnvNoKey .generateText sampleParams
      (fun _ _ => .ok sampleResponse)
      (logAiUsageService sampleModelMap (.ok "t"))).sentRequest = none :=
  missing_api_key_fails_named_no_call sampleEnvNoKey .generateText sampleParams
    (fun _ _ => .ok sampleResponse) (logAiUsageService sampleModelMap (.ok "t"))
    "gpt-4o" rfl (by decide) (Or.inl rfl)

/-- Witness for C6 at a concrete capability-mismatch error. -/
theorem generate_object_capability_error_witness :
    (unifiedServiceRunner sampleEnv .generateObject sampleParams
      (fun _ _ => .error (mkErr "Tool use is not supported by this endpoint"))
      (logAiUsageService sampleModelMap (.ok "t"))).result =
      .error (mkErr (toolSupportErrorMsg (some "gpt-4o") (some "openai")
        sampleParams.role)) ∧
    containsSub (toolSupportErrorMsg (some "gpt-4o") (some "openai") sampleParams.role)
      "gpt-4o" = true ∧
    containsSub (toolSupportErrorMsg (some "gpt-4o") (some "openai") sampleParams.role)
      sampleParams.role = true :=
  generate_object_capability_error_names_model_and_role sampleEnv sampleParams
    (fun _ _ => .error (mkErr "Tool use is not supported by this endpoint"))
    (logAiUsageService sampleModelMap (.ok "t"))
    "openai" "gpt-4o" "sk-test" (mkErr "Tool use is not supported by this endpoint")
    rfl (by decide) (by decide) (by decide) rfl rfl (fun _ _ => rfl) (by decide)

/-- Witness for C8 at a concrete throwing telemetry function. -/
theorem telemetry_failure_never_propagates_witness :
    (∀ (mm : ModelMap) (m : String) (inp : TelemetryInput),
      logAiUsage mm (.error m) inp = none) ∧
    (unifiedServiceRunner sampleEnv .generateText sampleParams
      (fun _ _ => .ok sampleResponse)
      (fun _ => .error (mkErr "telemetry backend down"))).result =
      .ok { mainResult := extractMainResult .generateText sampleResponse,
            telemetryData := none } :=
  telemetry_failure_never_propagates sampleEnv .generateText sampleParams
    (fun _ _ => .ok sampleResponse) (fun _ => .error (mkErr "telemetry backend down"))
    "openai" "gpt-4o" "sk-test" sampleResponse (mkErr "telemetry backend down")
    rfl (by decide) (by decide) (by decide) rfl rfl (fun _ _ => rfl) rfl rfl
    (fun _ => rfl)

/-- Witness for C7 at concrete pricing tables. -/
theorem telemetry_cost_formula_witness :
    getCostForModel [] "openai" "gpt-4o" =
      { inputCost := 0, outputCost := 0, currency := "USD" } ∧
    getCostForModel sampleModelMap "openai" "unknown-model" =
      { inputCost := 0, outputCost := 0, currency := "USD" } :=
  ⟨(telemetry_cost_formula [] "t"
      { userId := "u", commandName := "c", providerName := "openai", modelId := "gpt-4o",
        inputTokens := none, outputTokens := none, outputType := "cli" }).2.2.1
      "openai" "gpt-4o" rfl,
   (telemetry_cost_formula sampleModelMap "t"
      { userId := "u", commandName := "c", providerName := "openai", modelId := "gpt-4o",
        inputTokens := none, outputTokens := none, outputType := "cli" }).2.2.2
      "openai" "unknown-model" _ rfl rfl⟩

end TaskMaster
